import Mathlib

/-!
Verification of the scroll-bound view-transition controller of the
`commentary_2026_02-GS-Trump-II` scrollytelling repository.

The subsystem under study lives in `src/MapDotPlot.js` (the `MapDotPlot`
class: map ↔ scatter transition), `src/unnamed/part_001` (the `DotMapPlot`
class: dot-plot ↔ map transition) and the intersection-observer wiring in
`src/main.js` / `src/unnamed/part_003`.

Modelling conventions:
* JavaScript numbers are modelled by `ℚ` (exact real arithmetic), except
  where IEEE special values (Infinity / NaN) are the point of the claim,
  in which case the `JsNum` type below models them explicitly.
* DOM reads (`getBoundingClientRect().top`, `window.innerHeight`) are
  abstracted as explicit numeric arguments.
* `requestAnimationFrame` / `cancelAnimationFrame` are modelled by a token
  counter plus a list of pending frame tokens carried in the chart state.
* d3 colour interpolation (`d3.interpolateRgb`) is modelled per RGB
  channel, linearly (`a + t * (b - a)`), over ℚ; the string serialisation
  and channel rounding are omitted since every claim only compares
  endpoint values, where both sides are exact.
-/

/-- Linear interpolation as implemented by `d3.interpolateNumber`:
`t ↦ a * (1 - t) + b * t`. -/
def d3interpolateNumber (a b t : ℚ) : ℚ := a * (1 - t) + b * t

/-- An RGB colour; `d3.interpolateRgb` interpolates each channel
linearly (`a + t * (b - a)` per channel). -/
structure Rgb where
  r : ℚ
  g : ℚ
  b : ℚ
  deriving DecidableEq, Repr

/-- Per-channel linear colour interpolation (`d3.interpolateRgb`, gamma 1). -/
def d3interpolateRgb (a b : Rgb) (t : ℚ) : Rgb :=
  { r := a.r + t * (b.r - a.r)
    g := a.g + t * (b.g - a.g)
    b := a.b + t * (b.b - a.b) }

/-- The colour literal `"#595959"` used for dots in map view. -/
def gray595959 : Rgb := ⟨89, 89, 89⟩

/-- `MapDotPlot.calculateScrollProgress` (`src/MapDotPlot.js` 626-645) and
the identical `DotMapPlot.calculateScrollProgress`
(`src/unnamed/part_001` 498-512), over exact arithmetic:

    const startY = viewportHeight * 0.8;
    const endY = viewportHeight * 0.2;
    let progress = (startY - cardTop) / (startY - endY);
    return Math.max(0, Math.min(1, progress));

`viewportHeight` is `window.innerHeight` and `cardTop` is
`card.getBoundingClientRect().top`. -/
def calculateScrollProgress (viewportHeight cardTop : ℚ) : ℚ :=
  let startY := viewportHeight * 0.8
  let endY := viewportHeight * 0.2
  let progress := (startY - cardTop) / (startY - endY)
  max 0 (min 1 progress)

/-! ### JavaScript number semantics for the degenerate-viewport claim (C3)

`calculateScrollProgress` divides by `startY - endY` with no guard.  When
`window.innerHeight` is 0 both `startY` and `endY` are 0, so the division
is by zero and JavaScript produces `±Infinity` or `NaN`.  `JsNum` models
exactly the IEEE-754 special-value behaviour of the operations involved;
ordinary finite values stay exact (`ℚ`), which is faithful here because
every operation applied to them in this function is exact at the inputs of
interest (`viewportHeight = 0`). -/

/-- A JavaScript number: a finite value, an infinity, or NaN. -/
inductive JsNum where
  | num (q : ℚ)
  | posInf
  | negInf
  | nan
  deriving DecidableEq, Repr

/-- JavaScript subtraction on `JsNum` (IEEE-754). -/
def jsSub : JsNum → JsNum → JsNum
  | JsNum.nan, _ => JsNum.nan
  | _, JsNum.nan => JsNum.nan
  | JsNum.num a, JsNum.num b => JsNum.num (a - b)
  | JsNum.num _, JsNum.posInf => JsNum.negInf
  | JsNum.num _, JsNum.negInf => JsNum.posInf
  | JsNum.posInf, JsNum.num _ => JsNum.posInf
  | JsNum.negInf, JsNum.num _ => JsNum.negInf
  | JsNum.posInf, JsNum.negInf => JsNum.posInf
  | JsNum.negInf, JsNum.posInf => JsNum.negInf
  | JsNum.posInf, JsNum.posInf => JsNum.nan
  | JsNum.negInf, JsNum.negInf => JsNum.nan

/-- JavaScript multiplication on `JsNum` (IEEE-754). -/
def jsMul : JsNum → JsNum → JsNum
  | JsNum.nan, _ => JsNum.nan
  | _, JsNum.nan => JsNum.nan
  | JsNum.num a, JsNum.num b => JsNum.num (a * b)
  | JsNum.num a, JsNum.posInf =>
      if a = 0 then JsNum.nan else if 0 < a then JsNum.posInf else JsNum.negInf
  | JsNum.num a, JsNum.negInf =>
      if a = 0 then JsNum.nan else if 0 < a then JsNum.negInf else JsNum.posInf
  | JsNum.posInf, JsNum.num b =>
      if b = 0 then JsNum.nan else if 0 < b then JsNum.posInf else JsNum.negInf
  | JsNum.negInf, JsNum.num b =>
      if b = 0 then JsNum.nan else if 0 < b then JsNum.negInf else JsNum.posInf
  | JsNum.posInf, JsNum.posInf => JsNum.posInf
  | JsNum.posInf, JsNum.negInf => JsNum.negInf
  | JsNum.negInf, JsNum.posInf => JsNum.negInf
  | JsNum.negInf, JsNum.negInf => JsNum.posInf

/-- JavaScript division on `JsNum` (IEEE-754; the finite zero models `+0`,
which is what `startY - endY` produces here). -/
def jsDiv : JsNum → JsNum → JsNum
  | JsNum.nan, _ => JsNum.nan
  | _, JsNum.nan => JsNum.nan
  | JsNum.num a, JsNum.num b =>
      if b = 0 then
        if a = 0 then JsNum.nan
        else if 0 < a then JsNum.posInf else JsNum.negInf
      else JsNum.num (a / b)
  | JsNum.num _, JsNum.posInf => JsNum.num 0
  | JsNum.num _, JsNum.negInf => JsNum.num 0
  | JsNum.posInf, JsNum.num b => if 0 ≤ b then JsNum.posInf else JsNum.negInf
  | JsNum.negInf, JsNum.num b => if 0 ≤ b then JsNum.negInf else JsNum.posInf
  | JsNum.posInf, JsNum.posInf => JsNum.nan
  | JsNum.posInf, JsNum.negInf => JsNum.nan
  | JsNum.negInf, JsNum.posInf => JsNum.nan
  | JsNum.negInf, JsNum.negInf => JsNum.nan

/-- `Math.min` on `JsNum`: NaN if any argument is NaN. -/
def jsMin : JsNum → JsNum → JsNum
  | JsNum.nan, _ => JsNum.nan
  | _, JsNum.nan => JsNum.nan
  | JsNum.num a, JsNum.num b => JsNum.num (min a b)
  | JsNum.negInf, _ => JsNum.negInf
  | _, JsNum.negInf => JsNum.negInf
  | JsNum.posInf, x => x
  | x, JsNum.posInf => x

/-- `Math.max` on `JsNum`: NaN if any argument is NaN. -/
def jsMax : JsNum → JsNum → JsNum
  | JsNum.nan, _ => JsNum.nan
  | _, JsNum.nan => JsNum.nan
  | JsNum.num a, JsNum.num b => JsNum.num (max a b)
  | JsNum.posInf, _ => JsNum.posInf
  | _, JsNum.posInf => JsNum.posInf
  | JsNum.negInf, x => x
  | x, JsNum.negInf => x

/-- `calculateScrollProgress` again, but with the arithmetic carried out
in JavaScript number semantics (`src/MapDotPlot.js` 626-645,
`src/unnamed/part_001` 498-512):

    const startY = viewportHeight * 0.8;
    const endY = viewportHeight * 0.2;
    let progress = (startY - cardTop) / (startY - endY);
    return Math.max(0, Math.min(1, progress));

There is no guard on the division. -/
def calculateScrollProgressJS (viewportHeight cardTop : ℚ) : JsNum :=
  let startY := jsMul (JsNum.num viewportHeight) (JsNum.num 0.8)
  let endY := jsMul (JsNum.num viewportHeight) (JsNum.num 0.2)
  let progress := jsDiv (jsSub startY (JsNum.num cardTop)) (jsSub startY endY)
  jsMax (JsNum.num 0) (jsMin (JsNum.num 1) progress)

/-! ### The `MapDotPlot` render surface and transition interpolator

`src/MapDotPlot.js`.  A data point of the trade-deal chart is abstracted
by its two target placements and its categorical colour: `geoX/geoY` are
`projection([lon, lat])`, `catX/catY` are `xScale(country)` /
`yScale(name)`, and `typeColor` is `colorScale(type)`.  All of these are
fixed per datum during a transition (the projection and the scales are
set up once at load). -/

/-- One plotted trade-deal datum, as consumed by the transition code. -/
structure TradeDatum where
  geoX : ℚ
  geoY : ℚ
  catX : ℚ
  catY : ℚ
  typeColor : Rgb
  deriving DecidableEq, Repr

/-- The SVG attributes the transition code writes on one dot. -/
structure DotAttrs where
  cx : ℚ
  cy : ℚ
  r : ℚ
  fill : Rgb
  opacity : ℚ
  deriving DecidableEq, Repr

/-- The render-surface state of a `MapDotPlot` instance: the per-dot
attributes, the overlay-group opacities (`mapGroup`, `axesGroup`,
`legendGroup`) and the pointer-event eligibility of the dots and of the
country features (`true` = `"auto"`, `false` = `"none"`), plus the
`isScatterView` flag. -/
structure MDState where
  isScatterView : Bool
  dotsAttrs : List DotAttrs
  mapOpacity : ℚ
  axesOpacity : ℚ
  legendOpacity : ℚ
  dotsPE : Bool
  countriesPE : Bool
  deriving DecidableEq, Repr

/-- The render state after `setupElements` (`src/MapDotPlot.js` 143-354):
dots at geographic positions, radius 6, fill `#595959`, opacity 1,
pointer events disabled; country features with pointer events enabled;
map group opacity 1; axes and legend groups opacity 0; map view. -/
def initRender (data : List TradeDatum) : MDState :=
  { isScatterView := false
    dotsAttrs := data.map fun d =>
      { cx := d.geoX, cy := d.geoY, r := 6, fill := gray595959, opacity := 1 }
    mapOpacity := 1
    axesOpacity := 0
    legendOpacity := 0
    dotsPE := false
    countriesPE := true }

/-- `MapDotPlot.setTransitionProgress(isScatter, progress)`
(`src/MapDotPlot.js` 540-623).  Clamps progress to `[0, 1]`, records
`isScatterView = isScatter`, then writes interpolated attributes on every
dot, sets the overlay-group opacities, and — only when `progress > 0.5` —
flips pointer events toward the destination layer (there is no `else`
branch in the source, so at `progress ≤ 0.5` pointer events are left as
they were). -/
def setTransitionProgress (data : List TradeDatum) (isScatter : Bool) (p : ℚ)
    (s : MDState) : MDState :=
  let progress := max 0 (min 1 p)
  if isScatter then
    { isScatterView := true
      dotsAttrs := data.map fun d =>
        { cx := d3interpolateNumber d.geoX d.catX progress
          cy := d3interpolateNumber d.geoY d.catY progress
          r := d3interpolateNumber 6 8 progress
          fill := d3interpolateRgb gray595959 d.typeColor progress
          opacity := 1 }
      mapOpacity := 1 - progress
      axesOpacity := progress
      legendOpacity := progress
      dotsPE := if 0.5 < progress then true else s.dotsPE
      countriesPE := if 0.5 < progress then false else s.countriesPE }
  else
    { isScatterView := false
      dotsAttrs := data.map fun d =>
        { cx := d3interpolateNumber d.catX d.geoX progress
          cy := d3interpolateNumber d.catY d.geoY progress
          r := d3interpolateNumber 8 6 progress
          fill := d3interpolateRgb d.typeColor gray595959 progress
          opacity := 1 }
      mapOpacity := progress
      axesOpacity := 1 - progress
      legendOpacity := 1 - progress
      dotsPE := if 0.5 < progress then false else s.dotsPE
      countriesPE := if 0.5 < progress then true else s.countriesPE }

/-- `MapDotPlot.toggleView(isScatter, step)` (`src/MapDotPlot.js`
481-519): the discrete view switch; end state of its 1000 ms transition.
It writes the static attributes of the destination view on every dot and
fades the map and axes groups; it touches neither the legend group nor
pointer events. -/
def toggleView (data : List TradeDatum) (isScatter : Bool) (s : MDState) :
    MDState :=
  if isScatter then
    { s with
        isScatterView := true
        dotsAttrs := data.map fun d =>
          { cx := d.catX, cy := d.catY, r := 8, fill := d.typeColor
            opacity := 1 }
        mapOpacity := 0
        axesOpacity := 1 }
  else
    { s with
        isScatterView := false
        dotsAttrs := data.map fun d =>
          { cx := d.geoX, cy := d.geoY, r := 6, fill := gray595959
            opacity := 1 }
        mapOpacity := 1
        axesOpacity := 0 }

/-- The two transition directions of `MapDotPlot`
(`this.transitionDirection`): the strings `'toScatter'` / `'toMap'`. -/
inductive Dir where
  | toScatter
  | toMap
  deriving DecidableEq, Repr

/-- The full state of a `MapDotPlot` instance as far as the scroll-bound
animation is concerned: the render surface plus the animation fields
(`scrollAnimationActive`, `currentTransitionCard`, `transitionDirection`,
`rafId`) and a model of the browser frame scheduler (`pending` = queue of
not-yet-fired, not-cancelled frame tokens; `nextToken` = the id the next
`requestAnimationFrame` call returns). Cards are identified by `Nat`. -/
structure MDFull where
  render : MDState
  scrollAnimationActive : Bool
  currentTransitionCard : Option Nat
  transitionDirection : Option Dir
  rafId : Option Nat
  pending : List Nat
  nextToken : Nat
  deriving DecidableEq, Repr

/-- `MapDotPlot.stopScrollAnimation()` (`src/MapDotPlot.js` 679-688):
clears the active flag, card and direction, and cancels the pending
frame if there is one. -/
def stopScrollAnimation (s : MDFull) : MDFull :=
  let s1 := { s with
      scrollAnimationActive := false
      currentTransitionCard := none
      transitionDirection := none }
  match s1.rafId with
  | some t => { s1 with pending := s1.pending.erase t, rafId := none }
  | none => s1

/-- `MapDotPlot.updateScrollAnimation()` (`src/MapDotPlot.js` 648-663):
the per-frame callback.  If the animation is not active or there is no
transition card it returns at once (no render write, no new frame);
otherwise it recomputes progress from the card's current position
(`layout card` = the card's `getBoundingClientRect().top`), applies it in
the recorded direction, and schedules the next frame. -/
def updateScrollAnimation (layout : Nat → ℚ) (vh : ℚ)
    (data : List TradeDatum) (s : MDFull) : MDFull :=
  match s.currentTransitionCard, s.scrollAnimationActive with
  | some card, true =>
    let progress := calculateScrollProgress vh (layout card)
    let render :=
      match s.transitionDirection with
      | some Dir.toScatter => setTransitionProgress data true progress s.render
      | some Dir.toMap => setTransitionProgress data false progress s.render
      | none => s.render
    { s with
        render := render
        rafId := some s.nextToken
        pending := s.pending ++ [s.nextToken]
        nextToken := s.nextToken + 1 }
  | _, _ => s

/-- `MapDotPlot.startScrollAnimation(card, direction)`
(`src/MapDotPlot.js` 666-676): stops any existing animation, marks the
transition active, records card and direction, and runs the first frame
synchronously (which schedules the next one). -/
def startScrollAnimation (layout : Nat → ℚ) (vh : ℚ)
    (data : List TradeDatum) (card : Nat) (dir : Dir) (s : MDFull) : MDFull :=
  let s1 := stopScrollAnimation s
  let s2 := { s1 with
      scrollAnimationActive := true
      currentTransitionCard := some card
      transitionDirection := some dir }
  updateScrollAnimation layout vh data s2

/-- The browser firing animation-frame token `t`: a cancelled token does
nothing; a pending token is removed from the queue and its callback
(`updateScrollAnimation`) runs. -/
def runFrame (layout : Nat → ℚ) (vh : ℚ) (data : List TradeDatum)
    (t : Nat) (s : MDFull) : MDFull :=
  if t ∈ s.pending then
    updateScrollAnimation layout vh data { s with pending := s.pending.erase t }
  else s

/-- The scheduler invariant maintained by the chart: the pending queue
holds exactly the frame recorded in `rafId` (at most one in-flight
frame). -/
def wellFormed (s : MDFull) : Prop :=
  s.pending = s.rafId.toList

/-- The `mapdotStep2Observer` exit handler (`src/main.js` 474-506), run
for one observed entry with card id `card`, intersection flag
`isIntersecting` and step number `step`: when the step-2 transition card
stops intersecting while it is the current transition card, it stops the
animation, evaluates progress at that moment, and snaps —
`setTransitionProgress(true, 1)` and `isScatterView = true` when
`progress > 0.5`, else `setTransitionProgress(true, 0)` and
`isScatterView = false`. -/
def mapdotStep2Exit (layout : Nat → ℚ) (vh : ℚ) (data : List TradeDatum)
    (card : Nat) (isIntersecting : Bool) (step : Nat) (s : MDFull) : MDFull :=
  if step = 2 ∧ isIntersecting = false ∧ s.currentTransitionCard = some card
  then
    let s1 := stopScrollAnimation s
    let currentProgress := calculateScrollProgress vh (layout card)
    if 0.5 < currentProgress then
      { s1 with render :=
          { setTransitionProgress data true 1 s1.render with
              isScatterView := true } }
    else
      { s1 with render :=
          { setTransitionProgress data true 0 s1.render with
              isScatterView := false } }
  else s

/-! ### The `DotMapPlot` transition interpolator (`src/unnamed/part_001`)

The strikes chart interpolates between a time/stack dot plot and an
azimuthal map.  A datum carries its dot-plot placement
(`xScale(event_date)`, `yScale(stack)`) and, when a geojson feature with
a matching id exists, the projected geographic position
(`projection(geoFeature.geometry.coordinates)`); `geo = none` models a
datum for which `geoData.features.find(...)` returns `undefined`. -/

/-- One strike datum as consumed by `DotMapPlot.setTransitionProgress`. -/
structure StrikeDatum where
  dotX : ℚ
  dotY : ℚ
  geo : Option (ℚ × ℚ)
  deriving DecidableEq, Repr

/-- The attributes `DotMapPlot.setTransitionProgress` writes on one dot. -/
structure DMAttrs where
  cx : ℚ
  cy : ℚ
  r : ℚ
  opacity : ℚ
  deriving DecidableEq, Repr

/-- `DotMapPlot.setTransitionProgress(toMap, progress)`
(`src/unnamed/part_001` 411-495), per-dot part.  Clamps progress, then:
toward the map, a dot with a geographic feature interpolates from its
dot-plot position to the projected position and from opacity 1 to 0.33;
a dot without one keeps its dot-plot position and fades from 1 to 0.
Toward the dot plot the mirrored interpolations run (0.33 → 1 with a
feature, 0 → 1 without). -/
def dmSetTransitionProgress (toMap : Bool) (p : ℚ) (d : StrikeDatum) :
    DMAttrs :=
  let progress := max 0 (min 1 p)
  if toMap then
    { cx := match d.geo with
        | some g => d3interpolateNumber d.dotX g.1 progress
        | none => d.dotX
      cy := match d.geo with
        | some g => d3interpolateNumber d.dotY g.2 progress
        | none => d.dotY
      r := 2.5
      opacity := match d.geo with
        | some _ => d3interpolateNumber 1 0.33 progress
        | none => d3interpolateNumber 1 0 progress }
  else
    { cx := match d.geo with
        | some g => d3interpolateNumber g.1 d.dotX progress
        | none => d.dotX
      cy := match d.geo with
        | some g => d3interpolateNumber g.2 d.dotY progress
        | none => d.dotY
      r := 2.5
      opacity := match d.geo with
        | some _ => d3interpolateNumber 0.33 1 progress
        | none => d3interpolateNumber 0 1 progress }

/-- A freshly constructed chart: no animation, nothing pending, no data. -/
def initFull : MDFull :=
  { render := initRender []
    scrollAnimationActive := false
    currentTransitionCard := none
    transitionDirection := none
    rafId := none
    pending := []
    nextToken := 0 }

/-- A chart mid-transition on card 0 toward the scatter view (as after
`startScrollAnimation(card0, 'toScatter')` minus the pending frame). -/
def sampleFull : MDFull :=
  { render := initRender []
    scrollAnimationActive := true
    currentTransitionCard := some 0
    transitionDirection := some Dir.toScatter
    rafId := none
    pending := []
    nextToken := 0 }

/-! ### Theorems -/

/-- Claim C1: for every viewport height `vh > 0` and card top `top`,
`calculateScrollProgress` returns `(0.8·vh − top) / (0.8·vh − 0.2·vh)`
clamped to `[0, 1]`; in particular at `vh = 1000`, top 800 ↦ 0,
top 500 ↦ 1/2, top 200 ↦ 1. -/
theorem calculateScrollProgress_formula (vh top : ℚ) (hvh : 0 < vh) :
    calculateScrollProgress vh top
      = max 0 (min 1 ((0.8 * vh - top) / (0.8 * vh - 0.2 * vh)))
    ∧ calculateScrollProgress 1000 800 = 0
    ∧ calculateScrollProgress 1000 500 = 1 / 2
    ∧ calculateScrollProgress 1000 200 = 1 := by
  refine ⟨?_, ?_, ?_, ?_⟩
  · unfold calculateScrollProgress
    ring_nf
  · norm_num [calculateScrollProgress]
  · norm_num [calculateScrollProgress]
  · norm_num [calculateScrollProgress]

/-- Witness for C1 at the concrete input `vh = 1000`, `top = 500`. -/
theorem calculateScrollProgress_formula_witness :
    calculateScrollProgress 1000 500
      = max 0 (min 1 ((0.8 * 1000 - 500) / (0.8 * 1000 - 0.2 * 1000))) :=
  (calculateScrollProgress_formula 1000 500 (by norm_num)).1

/-- Claim C2: for a fixed viewport height `vh > 0`, progress is
non-decreasing as the card top decreases (`t2 ≤ t1` implies progress at
`t1` ≤ progress at `t2`), equals exactly 0 whenever `top > 0.8·vh`, and
equals exactly 1 whenever `top < 0.2·vh`. -/
theorem calculateScrollProgress_monotone (vh t1 t2 : ℚ) (hvh : 0 < vh) :
    (t2 ≤ t1 → calculateScrollProgress vh t1 ≤ calculateScrollProgress vh t2)
    ∧ (0.8 * vh < t1 → calculateScrollProgress vh t1 = 0)
    ∧ (t1 < 0.2 * vh → calculateScrollProgress vh t1 = 1) := by
  have hden : (0 : ℚ) < vh * 0.8 - vh * 0.2 := by nlinarith
  refine ⟨?_, ?_, ?_⟩
  · intro hle
    unfold calculateScrollProgress
    have hq : (vh * 0.8 - t1) / (vh * 0.8 - vh * 0.2)
        ≤ (vh * 0.8 - t2) / (vh * 0.8 - vh * 0.2) :=
      (div_le_div_iff_of_pos_right hden).mpr (by linarith)
    exact max_le_max le_rfl (min_le_min le_rfl hq)
  · intro hgt
    have hq : (vh * 0.8 - t1) / (vh * 0.8 - vh * 0.2) ≤ 0 := by
      apply div_nonpos_of_nonpos_of_nonneg <;> linarith
    have h1 : min 1 ((vh * 0.8 - t1) / (vh * 0.8 - vh * 0.2))
        = (vh * 0.8 - t1) / (vh * 0.8 - vh * 0.2) :=
      min_eq_right (by linarith)
    show max 0 (min 1 ((vh * 0.8 - t1) / (vh * 0.8 - vh * 0.2))) = 0
    rw [h1]
    exact max_eq_left hq
  · intro hlt
    have hq : (1 : ℚ) ≤ (vh * 0.8 - t1) / (vh * 0.8 - vh * 0.2) := by
      rw [le_div_iff₀ hden]
      linarith
    show max 0 (min 1 ((vh * 0.8 - t1) / (vh * 0.8 - vh * 0.2))) = 1
    rw [min_eq_left hq, max_eq_right zero_le_one]

/-- Witness for C2 at `vh = 1000`, card tops 900 and 100. -/
theorem calculateScrollProgress_monotone_witness :
    calculateScrollProgress 1000 900 ≤ calculateScrollProgress 1000 100
    ∧ calculateScrollProgress 1000 900 = 0
    ∧ calculateScrollProgress 1000 100 = 1 :=
  ⟨(calculateScrollProgress_monotone 1000 900 100 (by norm_num)).1 (by norm_num),
   (calculateScrollProgress_monotone 1000 900 100 (by norm_num)).2.1 (by norm_num),
   (calculateScrollProgress_monotone 1000 100 900 (by norm_num)).2.2 (by norm_num)⟩

/-- Claim C3 (refuting evaluation): at viewport height 0 the unguarded
division makes the code return `NaN` when the card top is exactly 0
(`(0 − 0) / (0 − 0) = NaN`, and `Math.max`/`Math.min` propagate it), so
the claim "never returns NaN: the guarded computation still yields 0 or 1"
fails on the code; for nonzero card tops the clamp does saturate the
resulting infinities to 0 or 1. -/
theorem calculateScrollProgressJS_degenerate :
    calculateScrollProgressJS 0 0 = JsNum.nan
    ∧ calculateScrollProgressJS 0 5 = JsNum.num 0
    ∧ calculateScrollProgressJS 0 (-5) = JsNum.num 1 := by
  refine ⟨?_, ?_, ?_⟩ <;>
    norm_num [calculateScrollProgressJS, jsMul, jsSub, jsDiv, jsMin, jsMax]

/-- `max 0 (min 1 0) = 0` (the clamp at the lower endpoint). -/
theorem clamp_zero_eval : max 0 (min 1 (0 : ℚ)) = 0 := by
  rw [min_eq_right zero_le_one, max_self]

/-- `max 0 (min 1 1) = 1` (the clamp at the upper endpoint). -/
theorem clamp_one_eval : max 0 (min 1 (1 : ℚ)) = 1 := by
  rw [min_self, max_eq_right zero_le_one]

/-- `d3.interpolate(a, b)(0) = a` for numbers. -/
theorem d3interpolateNumber_zero (a b : ℚ) : d3interpolateNumber a b 0 = a := by
  unfold d3interpolateNumber; ring

/-- `d3.interpolate(a, b)(1) = b` for numbers. -/
theorem d3interpolateNumber_one (a b : ℚ) : d3interpolateNumber a b 1 = b := by
  unfold d3interpolateNumber; ring

/-- `d3.interpolate(a, b)(0) = a` for RGB colours. -/
theorem d3interpolateRgb_zero (a b : Rgb) : d3interpolateRgb a b 0 = a := by
  obtain ⟨ar, ag, ab⟩ := a
  simp [d3interpolateRgb]

/-- `d3.interpolate(a, b)(1) = b` for RGB colours. -/
theorem d3interpolateRgb_one (a b : Rgb) : d3interpolateRgb a b 1 = b := by
  obtain ⟨ar, ag, ab⟩ := a
  obtain ⟨br, bg, bb⟩ := b
  simp only [d3interpolateRgb, Rgb.mk.injEq]
  refine ⟨by ring, by ring, by ring⟩

/-- `setTransitionProgress(true, 0)` written out: the fully geographic
attributes, pointer events untouched. -/
theorem setTransitionProgress_true_zero (data : List TradeDatum)
    (s : MDState) :
    setTransitionProgress data true 0 s
      = { isScatterView := true
          dotsAttrs := data.map fun d =>
            { cx := d.geoX, cy := d.geoY, r := 6, fill := gray595959
              opacity := 1 }
          mapOpacity := 1
          axesOpacity := 0
          legendOpacity := 0
          dotsPE := s.dotsPE
          countriesPE := s.countriesPE } := by
  simp only [setTransitionProgress, clamp_zero_eval, d3interpolateNumber_zero,
    d3interpolateRgb_zero, if_true, MDState.mk.injEq]
  norm_num

/-- `setTransitionProgress(true, 1)` written out: the fully categorical
attributes, pointer events flipped to the dots. -/
theorem setTransitionProgress_true_one (data : List TradeDatum)
    (s : MDState) :
    setTransitionProgress data true 1 s
      = { isScatterView := true
          dotsAttrs := data.map fun d =>
            { cx := d.catX, cy := d.catY, r := 8, fill := d.typeColor
              opacity := 1 }
          mapOpacity := 0
          axesOpacity := 1
          legendOpacity := 1
          dotsPE := true
          countriesPE := false } := by
  simp only [setTransitionProgress, clamp_one_eval, d3interpolateNumber_one,
    d3interpolateRgb_one, if_true, MDState.mk.injEq]
  norm_num

/-- `setTransitionProgress(false, 0)` written out: the fully categorical
attributes, pointer events untouched. -/
theorem setTransitionProgress_false_zero (data : List TradeDatum)
    (s : MDState) :
    setTransitionProgress data false 0 s
      = { isScatterView := false
          dotsAttrs := data.map fun d =>
            { cx := d.catX, cy := d.catY, r := 8, fill := d.typeColor
              opacity := 1 }
          mapOpacity := 0
          axesOpacity := 1
          legendOpacity := 1
          dotsPE := s.dotsPE
          countriesPE := s.countriesPE } := by
  simp only [setTransitionProgress, clamp_zero_eval, d3interpolateNumber_zero,
    d3interpolateRgb_zero, MDState.mk.injEq]
  norm_num

/-- `setTransitionProgress(false, 1)` written out: the fully geographic
attributes, pointer events flipped to the country features. -/
theorem setTransitionProgress_false_one (data : List TradeDatum)
    (s : MDState) :
    setTransitionProgress data false 1 s
      = { isScatterView := false
          dotsAttrs := data.map fun d =>
            { cx := d.geoX, cy := d.geoY, r := 6, fill := gray595959
              opacity := 1 }
          mapOpacity := 1
          axesOpacity := 0
          legendOpacity := 0
          dotsPE := false
          countriesPE := true } := by
  simp only [setTransitionProgress, clamp_one_eval, d3interpolateNumber_one,
    d3interpolateRgb_one, MDState.mk.injEq]
  norm_num

/-- Claim C4: for every data point list, `setTransitionProgress` in the
toward-categorical direction at progress 0 produces per-dot attributes
(x, y, radius, fill, opacity) and overlay-group opacities identical to
the static fully-geographic render of `toggleView(false)`, and at
progress 1 identical to the static fully-categorical render of
`toggleView(true)`; the mirrored statement holds for the toward-geographic
direction. -/
theorem setTransitionProgress_endpoints (data : List TradeDatum)
    (s t : MDState) :
    ((setTransitionProgress data true 0 s).dotsAttrs
        = (toggleView data false t).dotsAttrs
      ∧ (setTransitionProgress data true 0 s).mapOpacity
        = (toggleView data false t).mapOpacity
      ∧ (setTransitionProgress data true 0 s).axesOpacity
        = (toggleView data false t).axesOpacity)
    ∧ ((setTransitionProgress data true 1 s).dotsAttrs
        = (toggleView data true t).dotsAttrs
      ∧ (setTransitionProgress data true 1 s).mapOpacity
        = (toggleView data true t).mapOpacity
      ∧ (setTransitionProgress data true 1 s).axesOpacity
        = (toggleView data true t).axesOpacity)
    ∧ ((setTransitionProgress data false 0 s).dotsAttrs
        = (toggleView data true t).dotsAttrs
      ∧ (setTransitionProgress data false 0 s).mapOpacity
        = (toggleView data true t).mapOpacity
      ∧ (setTransitionProgress data false 0 s).axesOpacity
        = (toggleView data true t).axesOpacity)
    ∧ ((setTransitionProgress data false 1 s).dotsAttrs
        = (toggleView data false t).dotsAttrs
      ∧ (setTransitionProgress data false 1 s).mapOpacity
        = (toggleView data false t).mapOpacity
      ∧ (setTransitionProgress data false 1 s).axesOpacity
        = (toggleView data false t).axesOpacity) := by
  simp [setTransitionProgress_true_zero, setTransitionProgress_true_one,
    setTransitionProgress_false_zero, setTransitionProgress_false_one,
    toggleView]

/-- Clamping is idempotent. -/
theorem clamp_idem (p : ℚ) :
    max 0 (min 1 (max 0 (min 1 p))) = max 0 (min 1 p) := by
  have h1 : max 0 (min 1 p) ≤ 1 := max_le zero_le_one (min_le_left _ _)
  have h0 : (0 : ℚ) ≤ max 0 (min 1 p) := le_max_left _ _
  rw [min_eq_right h1, max_eq_right h0]

/-- Claim C10: for every real progress argument `p`, including `p < 0`
and `p > 1`, `setTransitionProgress(direction, p)` produces exactly the
state it would produce for `clamp(p, 0, 1)` — every attribute channel
included — and likewise for the `DotMapPlot` variant, so out-of-range
input never extrapolates beyond the endpoint states. -/
theorem setTransitionProgress_clamp (data : List TradeDatum)
    (isScatter : Bool) (p : ℚ) (s : MDState) (toMap : Bool)
    (d : StrikeDatum) :
    setTransitionProgress data isScatter p s
      = setTransitionProgress data isScatter (max 0 (min 1 p)) s
    ∧ dmSetTransitionProgress toMap p d
      = dmSetTransitionProgress toMap (max 0 (min 1 p)) d := by
  constructor
  · simp only [setTransitionProgress, clamp_idem]
  · simp only [dmSetTransitionProgress, clamp_idem]

/-- Claim C5: a `DotMapPlot` data point with no matching geo feature
(`geo = none`) gets, for every progress `p ∈ [0, 1]` and in both
directions, an opacity within `[0, 1]` that is exactly 0 at the
fully-geographic (map) endpoint and exactly 1 at the fully-categorical
(dot-plot) endpoint — it fades out toward the map instead of rendering at
an undefined position, and the computation is total (never throws). -/
theorem dmSetTransitionProgress_missing_geo_opacity (d : StrikeDatum)
    (p : ℚ) (hg : d.geo = none) (h0 : 0 ≤ p) (h1 : p ≤ 1) :
    (0 ≤ (dmSetTransitionProgress true p d).opacity
      ∧ (dmSetTransitionProgress true p d).opacity ≤ 1)
    ∧ (dmSetTransitionProgress true 1 d).opacity = 0
    ∧ (dmSetTransitionProgress true 0 d).opacity = 1
    ∧ (0 ≤ (dmSetTransitionProgress false p d).opacity
      ∧ (dmSetTransitionProgress false p d).opacity ≤ 1)
    ∧ (dmSetTransitionProgress false 0 d).opacity = 0
    ∧ (dmSetTransitionProgress false 1 d).opacity = 1 := by
  have hc : max 0 (min 1 p) = p := by rw [min_eq_right h1, max_eq_right h0]
  refine ⟨⟨?_, ?_⟩, ?_, ?_, ⟨?_, ?_⟩, ?_, ?_⟩ <;>
    simp [dmSetTransitionProgress, hg, d3interpolateNumber, hc,
      clamp_zero_eval, clamp_one_eval] <;>
    linarith

/-- Witness for C5: the datum `⟨0, 0, none⟩` at progress `1/2`. -/
theorem dmSetTransitionProgress_missing_geo_opacity_witness :
    (StrikeDatum.mk 0 0 none).geo = none
    ∧ (0 : ℚ) ≤ 1 / 2 ∧ (1 : ℚ) / 2 ≤ 1
    ∧ (0 ≤ (dmSetTransitionProgress true (1 / 2)
          (StrikeDatum.mk 0 0 none)).opacity
        ∧ (dmSetTransitionProgress true (1 / 2)
          (StrikeDatum.mk 0 0 none)).opacity ≤ 1) :=
  ⟨rfl, by norm_num, by norm_num,
    (dmSetTransitionProgress_missing_geo_opacity (StrikeDatum.mk 0 0 none)
      (1 / 2) rfl (by norm_num) (by norm_num)).1⟩

/-- Claim C9 (counterexample): applying `setTransitionProgress(true, 3/5)`
and then `setTransitionProgress(true, 2/5)` within the same transition
leaves the map overlay more than 50% opaque while the country features
still have pointer events disabled and the dots still have them enabled:
the source only flips pointer events under `if (progress > 0.5)` and has
no branch restoring them when progress moves back below 0.5, so
pointer-event eligibility does not always match the dominant layer. -/
theorem setTransitionProgress_pointer_events_counterexample :
    (1 : ℚ) / 2
      < (setTransitionProgress [] true (2 / 5)
          (setTransitionProgress [] true (3 / 5) (initRender []))).mapOpacity
    ∧ (setTransitionProgress [] true (2 / 5)
        (setTransitionProgress [] true (3 / 5)
          (initRender []))).countriesPE = false
    ∧ (setTransitionProgress [] true (2 / 5)
        (setTransitionProgress [] true (3 / 5) (initRender []))).dotsPE
        = true := by
  norm_num [setTransitionProgress, initRender, min_def, max_def]

/-- Claim C9 (amended): whenever the applied (clamped) progress strictly
exceeds 0.5, pointer events are enabled on the destination-direction
group and disabled on the other; at clamped progress ≤ 0.5 the
pointer-event assignment is left unchanged from the previous state, so it
can disagree with the dominant visible layer when progress moves back
below 0.5 within the same transition. -/
theorem setTransitionProgress_pointer_events_amended
    (data : List TradeDatum) (s : MDState) (p : ℚ) (isScatter : Bool) :
    (0.5 < max 0 (min 1 p) →
      ((setTransitionProgress data true p s).dotsPE = true
        ∧ (setTransitionProgress data true p s).countriesPE = false)
      ∧ ((setTransitionProgress data false p s).dotsPE = false
        ∧ (setTransitionProgress data false p s).countriesPE = true))
    ∧ (max 0 (min 1 p) ≤ 0.5 →
      (setTransitionProgress data isScatter p s).dotsPE = s.dotsPE
      ∧ (setTransitionProgress data isScatter p s).countriesPE
          = s.countriesPE) := by
  constructor
  · intro h
    simp [setTransitionProgress, h]
  · intro h
    have hn : ¬ (0.5 < max 0 (min 1 p)) := not_lt.mpr h
    cases isScatter <;> simp [setTransitionProgress, hn]

/-- Witness for the amended C9 at progress `3/5` from the initial
render state. -/
theorem setTransitionProgress_pointer_events_amended_witness :
    (0.5 : ℚ) < max 0 (min 1 (3 / 5))
    ∧ (setTransitionProgress [] true (3 / 5) (initRender [])).dotsPE = true
    ∧ (setTransitionProgress [] true (3 / 5)
        (initRender [])).countriesPE = false :=
  ⟨by norm_num [min_def, max_def],
    ((setTransitionProgress_pointer_events_amended [] (initRender [])
      (3 / 5) true).1 (by norm_num [min_def, max_def])).1⟩

/-- `stopScrollAnimation` clears the animation fields, leaves the counter
and the render surface alone, and — under the scheduler invariant —
empties the pending-frame queue. -/
theorem stopScrollAnimation_clears (s : MDFull) (hwf : wellFormed s) :
    (stopScrollAnimation s).pending = []
    ∧ (stopScrollAnimation s).rafId = none
    ∧ (stopScrollAnimation s).nextToken = s.nextToken
    ∧ (stopScrollAnimation s).scrollAnimationActive = false
    ∧ (stopScrollAnimation s).currentTransitionCard = none
    ∧ (stopScrollAnimation s).transitionDirection = none
    ∧ (stopScrollAnimation s).render = s.render := by
  unfold wellFormed at hwf
  unfold stopScrollAnimation
  cases h : s.rafId <;> simp [h, hwf, h ▸ hwf]

/-- `stopScrollAnimation` deactivates and keeps the render surface,
with no invariant assumed. -/
theorem stopScrollAnimation_fields (s : MDFull) :
    (stopScrollAnimation s).scrollAnimationActive = false
    ∧ (stopScrollAnimation s).render = s.render := by
  unfold stopScrollAnimation
  cases h : s.rafId <;> simp [h]

/-- Claim C7: every scheduled frame callback first checks the active flag
and the recorded card: if the transition is no longer active (or there is
no card) it returns the state unchanged — no render write, no new frame —
and this is the only non-rescheduling path: whenever the transition is
active with a card, the callback schedules exactly one further frame
(appending token `nextToken` to the queue and recording it in `rafId`). -/
theorem updateScrollAnimation_inactive_guard (layout : Nat → ℚ) (vh : ℚ)
    (data : List TradeDatum) (s : MDFull) :
    ((s.scrollAnimationActive = false ∨ s.currentTransitionCard = none) →
      updateScrollAnimation layout vh data s = s)
    ∧ (∀ card, s.scrollAnimationActive = true →
        s.currentTransitionCard = some card →
        (updateScrollAnimation layout vh data s).pending
            = s.pending ++ [s.nextToken]
          ∧ (updateScrollAnimation layout vh data s).rafId
            = some s.nextToken) := by
  obtain ⟨render, active, card, dir, raf, pending, nt⟩ := s
  constructor
  · rintro (h | h)
    · simp only at h
      subst h
      cases card <;> rfl
    · simp only at h
      subst h
      cases active <;> rfl
  · intro c hact hcard
    simp only at hact hcard
    subst hact
    subst hcard
    constructor <;> rfl

/-- Witness for C7: the fresh chart state is inactive, so a frame fired
against it is a no-op. -/
theorem updateScrollAnimation_inactive_guard_witness :
    (initFull.scrollAnimationActive = false
      ∨ initFull.currentTransitionCard = none)
    ∧ updateScrollAnimation (fun _ => 500) 1000 [] initFull = initFull :=
  ⟨Or.inl rfl,
    (updateScrollAnimation_inactive_guard (fun _ => 500) 1000 []
      initFull).1 (Or.inl rfl)⟩

/-- Claim C6: starting a scroll animation on card A and then on card B
leaves exactly one active loop: the final state is active, anchored to B
with the second direction, and exactly one frame is pending — the one
scheduled by the B loop — while the frame the A loop had scheduled has
been cancelled, so firing it afterwards mutates nothing. -/
theorem startScrollAnimation_exclusive (layout : Nat → ℚ) (vh : ℚ)
    (data : List TradeDatum) (A B : Nat) (d1 d2 : Dir) (s : MDFull)
    (hwf : wellFormed s) :
    (startScrollAnimation layout vh data B d2
        (startScrollAnimation layout vh data A d1 s)).scrollAnimationActive
      = true
    ∧ (startScrollAnimation layout vh data B d2
        (startScrollAnimation layout vh data A d1 s)).currentTransitionCard
      = some B
    ∧ (startScrollAnimation layout vh data B d2
        (startScrollAnimation layout vh data A d1 s)).transitionDirection
      = some d2
    ∧ (startScrollAnimation layout vh data B d2
        (startScrollAnimation layout vh data A d1 s)).rafId
      = some (s.nextToken + 1)
    ∧ (startScrollAnimation layout vh data B d2
        (startScrollAnimation layout vh data A d1 s)).pending
      = [s.nextToken + 1]
    ∧ (startScrollAnimation layout vh data A d1 s).rafId = some s.nextToken
    ∧ s.nextToken ∉ (startScrollAnimation layout vh data B d2
        (startScrollAnimation layout vh data A d1 s)).pending
    ∧ runFrame layout vh data s.nextToken
        (startScrollAnimation layout vh data B d2
          (startScrollAnimation layout vh data A d1 s))
      = startScrollAnimation layout vh data B d2
          (startScrollAnimation layout vh data A d1 s) := by
  obtain ⟨render, active, card, dir, raf, pending, nt⟩ := s
  unfold wellFormed at hwf
  simp only at hwf
  subst hwf
  have hne : nt ≠ nt + 1 := by omega
  cases raf <;>
    cases d1 <;>
      simp [startScrollAnimation, stopScrollAnimation, updateScrollAnimation,
        runFrame, List.erase_cons_head, hne]

/-- Witness for C6: two starts from the fresh chart state. -/
theorem startScrollAnimation_exclusive_witness :
    wellFormed initFull
    ∧ (startScrollAnimation (fun _ => 500) 1000 [] 1 Dir.toMap
        (startScrollAnimation (fun _ => 500) 1000 [] 0 Dir.toScatter
          initFull)).currentTransitionCard = some 1
    ∧ runFrame (fun _ => 500) 1000 [] initFull.nextToken
        (startScrollAnimation (fun _ => 500) 1000 [] 1 Dir.toMap
          (startScrollAnimation (fun _ => 500) 1000 [] 0 Dir.toScatter
            initFull))
      = startScrollAnimation (fun _ => 500) 1000 [] 1 Dir.toMap
          (startScrollAnimation (fun _ => 500) 1000 [] 0 Dir.toScatter
            initFull) :=
  ⟨rfl,
    (startScrollAnimation_exclusive (fun _ => 500) 1000 [] 0 1 Dir.toScatter
      Dir.toMap initFull rfl).2.1,
    (startScrollAnimation_exclusive (fun _ => 500) 1000 [] 0 1 Dir.toScatter
      Dir.toMap initFull rfl).2.2.2.2.2.2.2⟩

/-- Claim C8: when the step-2 transition card stops intersecting while it
is the current transition card, the exit handler stops the animation and
snaps by the progress evaluated at that moment: above 0.5 it applies the
interpolator at exactly progress 1 — the static destination (scatter)
render of `toggleView(true)` — and records the destination view state;
at 0.5 or below it applies exactly progress 0 — the static origin (map)
render of `toggleView(false)` — and records the origin view state. -/
theorem mapdotStep2Exit_snap (layout : Nat → ℚ) (vh : ℚ)
    (data : List TradeDatum) (card : Nat) (s : MDFull) (t : MDState)
    (hcard : s.currentTransitionCard = some card) :
    (mapdotStep2Exit layout vh data card false 2 s).scrollAnimationActive
      = false
    ∧ (0.5 < calculateScrollProgress vh (layout card) →
        (mapdotStep2Exit layout vh data card false 2 s).render.dotsAttrs
            = (toggleView data true t).dotsAttrs
        ∧ (mapdotStep2Exit layout vh data card false 2 s).render.mapOpacity
            = (toggleView data true t).mapOpacity
        ∧ (mapdotStep2Exit layout vh data card false 2 s).render.axesOpacity
            = (toggleView data true t).axesOpacity
        ∧ (mapdotStep2Exit layout vh data card false 2
            s).render.isScatterView = true)
    ∧ (calculateScrollProgress vh (layout card) ≤ 0.5 →
        (mapdotStep2Exit layout vh data card false 2 s).render.dotsAttrs
            = (toggleView data false t).dotsAttrs
        ∧ (mapdotStep2Exit layout vh data card false 2 s).render.mapOpacity
            = (toggleView data false t).mapOpacity
        ∧ (mapdotStep2Exit layout vh data card false 2 s).render.axesOpacity
            = (toggleView data false t).axesOpacity
        ∧ (mapdotStep2Exit layout vh data card false 2
            s).render.isScatterView = false) := by
  refine ⟨?_, ?_, ?_⟩
  · by_cases h : 0.5 < calculateScrollProgress vh (layout card) <;>
      simp [mapdotStep2Exit, hcard, h, (stopScrollAnimation_fields s).1]
  · intro h
    simp [mapdotStep2Exit, hcard, h, setTransitionProgress_true_one,
      toggleView]
  · intro h
    have hn : ¬ (0.5 < calculateScrollProgress vh (layout card)) :=
      not_lt.mpr h
    simp [mapdotStep2Exit, hcard, hn, setTransitionProgress_true_zero,
      toggleView]

/-- Witness for C8: card 0 sitting at top 100 in a 1000-pixel viewport
(progress 1), exiting while current. -/
theorem mapdotStep2Exit_snap_witness :
    sampleFull.currentTransitionCard = some 0
    ∧ (0.5 : ℚ) < calculateScrollProgress 1000 100
    ∧ (mapdotStep2Exit (fun _ => 100) 1000 [] 0 false 2
        sampleFull).scrollAnimationActive = false
    ∧ (mapdotStep2Exit (fun _ => 100) 1000 [] 0 false 2
        sampleFull).render.isScatterView = true :=
  ⟨rfl, by norm_num [calculateScrollProgress],
    (mapdotStep2Exit_snap (fun _ => 100) 1000 [] 0 sampleFull
      (initRender []) rfl).1,
    ((mapdotStep2Exit_snap (fun _ => 100) 1000 [] 0 sampleFull
      (initRender []) rfl).2.1
        (by norm_num [calculateScrollProgress])).2.2.2⟩
